import Mathlib

/-!
Verification of the dependency-checker in src/preprocess/common.py
(class Test, class Downloader).

The Python code is shallowly embedded: process execution and the
module imports are abstracted into an environment Env that maps an
argument vector to its execution outcome and a module name to its
outcome at import.  Each operation of the class Test is translated into a pure
Lean function over this environment, together with a trace of the
child processes it spawns, so that resource (wait) and redirection
properties are visible in the model.
-/

set_option autoImplicit false

deriving instance DecidableEq for Except

namespace DepCheck

/-- Outcome of attempting to execute an argument vector as a child
process: either the executable is missing (Python raises
FileNotFoundError at spawn time) or the process runs and exits with
the given code. -/
inductive ExecResult where
  | notFound
  | exited (code : Nat)
  deriving DecidableEq, Repr

/-- Outcome of importlib.import_module on a module name.
moduleNotFound models ModuleNotFoundError; importErrorOther models an
ImportError that is not a ModuleNotFoundError (for instance a failing
from-import inside the module); otherError models any exception
at import time that is not an ImportError at all (for instance a
ValueError raised by module-level code). -/
inductive ImportResult where
  | ok
  | moduleNotFound
  | importErrorOther
  | otherError
  deriving DecidableEq, Repr

/-- The execution environment: what the operating system does with
each argument vector, and what the Python import machinery does with
each module name.  Fixed for the duration of one check. -/
structure Env where
  exec : List String → ExecResult
  importModule : String → ImportResult

/-- Where a standard stream of a spawned child is directed. -/
inductive Dest where
  | null
  | toPipe
  | captured
  | inherited
  deriving DecidableEq, Repr

/-- Record of one child process spawned by run_cmd: its argument
vector, where its stdout and stderr go, and whether the parent waited
on it before run_cmd returned (normally or by raising). -/
structure Spawn where
  argv : List String
  stdout : Dest
  stderr : Dest
  waited : Bool
  deriving DecidableEq, Repr

/-- Errors that can escape run_cmd: FileNotFoundError from a spawn of
a missing executable, or CalledProcessError from check_call or
check_output on a non-zero exit. -/
inductive CmdError where
  | fileNotFound
  | calledProcessError (code : Nat)
  deriving DecidableEq, Repr

/-- Errors that can escape not_installed: the KeyError raised for an
unknown component (carrying the component and the valid keys shown in
the message), or a propagated CalledProcessError. -/
inductive ProbeErr where
  | keyError (component : String) (validKeys : List String)
  | calledProcessError (code : Nat)
  deriving DecidableEq, Repr

/-- Errors that can escape check_dependencies: a propagated probe
error, a propagated non-ImportError import failure (carrying the
module name), or one of the two aggregate errors (carrying the
comma-joined item string passed to the exception constructor). -/
inductive CheckErr where
  | probeErr (e : ProbeErr)
  | importOtherError (module : String)
  | uninstalledDependencyError (item : String)
  | missingModuleError (item : String)
  deriving DecidableEq, Repr

/-- Message built by UninstalledDependencyError.__init__ with the
default empty msg argument. -/
def uninstalledMessage (item : String) : String :=
  item ++ " not installed ... "

/-- Message built by MissingModuleError.__init__ with the default
empty msg argument. -/
def missingModuleMessage (item : String) : String :=
  "python module(s) - " ++ "\x27" ++ item ++ "\x27" ++ " cannot be found ... "

/-- Index of the first pipe token in an argument vector, mirroring
cmds.index("|"). -/
def pipeIdx : List String → Nat
  | [] => 0
  | c :: cs => if c = "|" then 0 else pipeIdx cs + 1

/-- Test.run_cmd.  With a pipe token: spawn the segment before the
pipe with stdout directed to a pipe (stderr left inherited), then run
check_output on the segment after the pipe reading that pipe (stdout
captured and discarded, stderr left inherited), then wait on the
first child.  check_output raises FileNotFoundError when the second
executable is missing and CalledProcessError on a non-zero exit of
the second stage; in either case the final wait on the first child is
never reached.  The exit status of the first stage is never
consulted.  Without a pipe token: check_call with stdout and stderr
sent to DEVNULL; it waits, then raises CalledProcessError on a
non-zero exit.  Returns the result together with the trace of spawned
children. -/
def runCmd (env : Env) (cmds : List String) :
    Except CmdError Unit × List Spawn :=
  if "|" ∈ cmds then
    let left := cmds.take (pipeIdx cmds)
    let right := cmds.drop (pipeIdx cmds + 1)
    match env.exec left with
    | ExecResult.notFound => (Except.error CmdError.fileNotFound, [])
    | ExecResult.exited _ =>
      match env.exec right with
      | ExecResult.notFound =>
        (Except.error CmdError.fileNotFound,
          [⟨left, Dest.toPipe, Dest.inherited, false⟩])
      | ExecResult.exited c =>
        if c = 0 then
          (Except.ok (),
            [⟨left, Dest.toPipe, Dest.inherited, true⟩,
             ⟨right, Dest.captured, Dest.inherited, true⟩])
        else
          (Except.error (CmdError.calledProcessError c),
            [⟨left, Dest.toPipe, Dest.inherited, false⟩,
             ⟨right, Dest.captured, Dest.inherited, true⟩])
  else
    match env.exec cmds with
    | ExecResult.notFound => (Except.error CmdError.fileNotFound, [])
    | ExecResult.exited c =>
      if c = 0 then (Except.ok (), [⟨cmds, Dest.null, Dest.null, true⟩])
      else
        (Except.error (CmdError.calledProcessError c),
          [⟨cmds, Dest.null, Dest.null, true⟩])

/-- The state of a Test object: the checklist held through the
MappingProxyType view (modelled as an ordered association list, since
Python dicts preserve insertion order) and the python_modules tuple. -/
structure TestState where
  ubuntu_todos : List (String × List String)
  python_modules : List String
  deriving DecidableEq, Repr

/-- First-match lookup in the checklist, mirroring dict indexing
(dict keys are unique, so first match is the match). -/
def lookupCmd (component : String) :
    List (String × List String) → Option (List String)
  | [] => none
  | (k, v) :: rest => if k = component then some v else lookupCmd component rest

/-- The keys of the checklist in iteration order. -/
def probeKeys (todos : List (String × List String)) : List String :=
  todos.map Prod.fst

/-- Test.not_installed.  Unknown component: raise KeyError listing
the valid keys, spawning nothing.  Otherwise run the probe command:
a FileNotFoundError is converted to the boolean true (not installed),
normal completion gives false, and any other error propagates. -/
def not_installed (env : Env) (st : TestState) (component : String) :
    Except ProbeErr Bool × List Spawn :=
  match lookupCmd component st.ubuntu_todos with
  | none =>
    (Except.error (ProbeErr.keyError component (probeKeys st.ubuntu_todos)), [])
  | some cmds =>
    match runCmd env cmds with
    | (Except.ok _, tr) => (Except.ok false, tr)
    | (Except.error CmdError.fileNotFound, tr) => (Except.ok true, tr)
    | (Except.error (CmdError.calledProcessError c), tr) =>
      (Except.error (ProbeErr.calledProcessError c), tr)

/-- The list-comprehension scan over the checklist keys: probe each
component in order, collecting the names whose probe returned true.
A probe that raises aborts the comprehension and propagates.  Also
returns the trace of components actually probed. -/
def scanProbes (env : Env) (st : TestState) :
    List String → Except ProbeErr (List String) × List String
  | [] => (Except.ok [], [])
  | k :: ks =>
    match (not_installed env st k).1 with
    | Except.error e => (Except.error e, [k])
    | Except.ok b =>
      match scanProbes env st ks with
      | (Except.error e, tr) => (Except.error e, k :: tr)
      | (Except.ok l, tr) => (Except.ok (if b then k :: l else l), k :: tr)

/-- The for-loop over python_modules: import each module, collecting
the names whose import raised an ImportError (ModuleNotFoundError
included); any exception that is not an ImportError aborts the loop
and propagates (modelled by returning the offending module name). -/
def scanModules (env : Env) : List String → Except String (List String)
  | [] => Except.ok []
  | m :: ms =>
    match env.importModule m with
    | ImportResult.ok => scanModules env ms
    | ImportResult.moduleNotFound => (scanModules env ms).map (fun l => m :: l)
    | ImportResult.importErrorOther => (scanModules env ms).map (fun l => m :: l)
    | ImportResult.otherError => Except.error m

/-- Test.check_dependencies: scan all probes, then scan all the
module imports, then raise UninstalledDependencyError when any probe
reported missing, else MissingModuleError when any import failed,
else return normally.  Returns the result together with the trace of
components probed. -/
def check_dependencies (env : Env) (st : TestState) :
    Except CheckErr Unit × List String :=
  match scanProbes env st (probeKeys st.ubuntu_todos) with
  | (Except.error e, tr) => (Except.error (CheckErr.probeErr e), tr)
  | (Except.ok uninstalledItems, tr) =>
    match scanModules env st.python_modules with
    | Except.error m => (Except.error (CheckErr.importOtherError m), tr)
    | Except.ok missingMods =>
      if 0 < uninstalledItems.length then
        (Except.error
          (CheckErr.uninstalledDependencyError
            (String.intercalate ", " uninstalledItems)), tr)
      else if 0 < missingMods.length then
        (Except.error
          (CheckErr.missingModuleError
            (String.intercalate ", " missingMods)), tr)
      else (Except.ok (), tr)

/-- Test.__init__ in the pure view: the checklist contents at
construction time, and python_modules set to the empty tuple. -/
def Test.init (ubuntu_commands : List (String × List String)) : TestState :=
  ⟨ubuntu_commands, []⟩

/-! ## Aliasing model for construction

Test.__init__ stores MappingProxyType(ubuntu_commands).  Per the
CPython documentation, a mapping proxy is a read-only VIEW of the
underlying mapping: it forbids writes through itself, but it is not a
copy, so later changes to the underlying dict are visible through the
view.  To reason about that, dict objects are given identities on a
heap and the Test object stores the identity, not the contents. -/

/-- A heap of dict objects, indexed by object identity. -/
def Heap : Type := Nat → List (String × List String)

/-- A Test object in the aliasing model: the identity of the dict the
proxy wraps, plus the python_modules tuple. -/
structure TestObj where
  todosRef : Nat
  python_modules : List String

/-- Test.__init__ in the aliasing model: MappingProxyType keeps a
reference to the very dict the caller passed in (no copy is made),
and python_modules is set to the empty tuple. -/
def Test.initRef (ubuntu_commands_ref : Nat) : TestObj :=
  ⟨ubuntu_commands_ref, []⟩

/-- Reading the proxy at call time: every access goes through to the
current contents of the underlying dict. -/
def TestObj.deref (h : Heap) (o : TestObj) : TestState :=
  ⟨h o.todosRef, o.python_modules⟩

/-- Assignment d[key] = val on a Python dict: overwrite the value of
an existing key in place (insertion order kept), else append. -/
def dictSetItem (d : List (String × List String)) (key : String)
    (val : List String) : List (String × List String) :=
  if key ∈ probeKeys d then
    d.map (fun kv => if kv.1 = key then (key, val) else kv)
  else d ++ [(key, val)]

/-- A caller mutating, after construction, the dict object it had
passed to Test.__init__. -/
def heapSet (h : Heap) (i : Nat) (d : List (String × List String)) : Heap :=
  fun j => if j = i then d else h j

/-- Test.not_installed called on a Test object in the aliasing model:
the checklist is read through the proxy at call time. -/
def notInstalledRef (env : Env) (h : Heap) (o : TestObj) (component : String) :
    Except ProbeErr Bool × List Spawn :=
  not_installed env (o.deref h) component

/-! ## Concrete environments and states for witnesses -/

/-- A fixed execution environment: executables a, b, c and lft exist
(b exits 1, lft exits 3, the others exit 0); every other argument
vector is a missing executable.  Module good imports fine, impErr
raises an ImportError that is not a ModuleNotFoundError, boom raises
a non-ImportError exception, and every other module is missing. -/
def envStd : Env where
  exec := fun argv =>
    if argv = ["a"] then ExecResult.exited 0
    else if argv = ["b"] then ExecResult.exited 1
    else if argv = ["c"] then ExecResult.exited 0
    else if argv = ["lft"] then ExecResult.exited 3
    else ExecResult.notFound
  importModule := fun m =>
    if m = "good" then ImportResult.ok
    else if m = "impErr" then ImportResult.importErrorOther
    else if m = "boom" then ImportResult.otherError
    else ImportResult.moduleNotFound

/-- Checklist with one piped probe whose second stage exits 1. -/
def stPipeAB : TestState := ⟨[("k", ["a", "|", "b"])], []⟩

/-- Checklist with one piped probe whose first stage exits 3 and
whose second stage exits 0. -/
def stPipeLft : TestState := ⟨[("k2", ["lft", "|", "a"])], []⟩

/-- Checklist with one non-piped probe that exits 1. -/
def stNonzero : TestState := ⟨[("t", ["b"])], []⟩

/-- Checklist with one missing probe and the importable module. -/
def stOneMissing : TestState := ⟨[("t", ["missing"])], ["good"]⟩

/-- Empty checklist with one missing module. -/
def stOneModule : TestState := ⟨[], ["nomod"]⟩

/-- Empty checklist with one module whose import raises an
ImportError that is not a ModuleNotFoundError. -/
def stImpErr : TestState := ⟨[], ["impErr"]⟩

/-- Empty checklist with one module whose import raises an exception
that is not an ImportError. -/
def stBoom : TestState := ⟨[], ["boom"]⟩

/-- Checklist with three probes of which the first and third are
missing executables. -/
def stThree : TestState :=
  ⟨[("t1", ["missing"]), ("t2", ["a"]), ("t3", ["miss2"])], []⟩

/-- Heap whose dict 0 is a checklist probing executable a. -/
def heap0 : Heap := fun _ => [("tool", ["a"])]

/-! ## Helper lemmas -/

theorem lookupCmd_eq_none_of_not_mem (k : String)
    (todos : List (String × List String)) (h : ¬ k ∈ probeKeys todos) :
    lookupCmd k todos = none := by
  induction todos with
  | nil => rfl
  | cons kv rest ih =>
    obtain ⟨a, b⟩ := kv
    simp only [probeKeys, List.map_cons, List.mem_cons, not_or] at h
    obtain ⟨h1, h2⟩ := h
    simp only [lookupCmd, if_neg (fun hh : a = k => h1 hh.symm)]
    exact ih (by simpa [probeKeys] using h2)

theorem scanProbes_ok_spec (env : Env) (st : TestState) (ks : List String)
    (l : List String) (h : (scanProbes env st ks).1 = Except.ok l) :
    l = ks.filter
      (fun k => decide ((not_installed env st k).1 = Except.ok true)) ∧
    (scanProbes env st ks).2 = ks := by
  induction ks generalizing l with
  | nil =>
    simp only [scanProbes, Except.ok.injEq] at h
    simp [scanProbes, ← h]
  | cons k ks ih =>
    rcases hni : (not_installed env st k).1 with e | b
    · simp [scanProbes, hni] at h
    · rcases hsp : scanProbes env st ks with ⟨res, tr⟩
      rcases res with e | l0
      · simp [scanProbes, hni, hsp] at h
      · obtain ⟨hl0, htr⟩ := ih l0 (by rw [hsp])
        rw [hsp] at htr
        simp only at htr
        simp only [scanProbes, hni, hsp, Except.ok.injEq] at h
        subst htr
        cases b with
        | false =>
          simp only [if_neg Bool.false_ne_true] at h
          simp [scanProbes, hni, hsp, List.filter_cons, ← h, hl0]
        | true =>
          simp only [if_pos rfl] at h
          simp [scanProbes, hni, hsp, List.filter_cons, ← h, hl0]

theorem scanModules_ok_spec (env : Env) (ms : List String)
    (h : ∀ m ∈ ms, env.importModule m ≠ ImportResult.otherError) :
    scanModules env ms = Except.ok (ms.filter (fun m =>
      decide (env.importModule m = ImportResult.moduleNotFound ∨
        env.importModule m = ImportResult.importErrorOther))) := by
  induction ms with
  | nil => rfl
  | cons m ms ih =>
    have hrest : ∀ x ∈ ms, env.importModule x ≠ ImportResult.otherError :=
      fun x hx => h x (List.mem_cons_of_mem m hx)
    rcases him : env.importModule m with _ | _ | _ | _
    · simp [scanModules, him, ih hrest, List.filter_cons]
    · simp [scanModules, him, ih hrest, List.filter_cons, Except.map]
    · simp [scanModules, him, ih hrest, List.filter_cons, Except.map]
    · exact absurd him (h m (List.mem_cons_self m ms))

theorem scanModules_error_spec (env : Env) (ms : List String) (m : String)
    (h : scanModules env ms = Except.error m) :
    m ∈ ms ∧ env.importModule m = ImportResult.otherError := by
  induction ms with
  | nil => simp [scanModules] at h
  | cons x ms ih =>
    rcases him : env.importModule x with _ | _ | _ | _
    · simp only [scanModules, him] at h
      obtain ⟨hmem, hprop⟩ := ih h
      exact ⟨List.mem_cons_of_mem x hmem, hprop⟩
    · rcases hs : scanModules env ms with e | l
      · simp only [scanModules, him, hs, Except.map, Except.error.injEq] at h
        obtain ⟨hmem, hprop⟩ := ih (h ▸ hs)
        exact ⟨List.mem_cons_of_mem x hmem, hprop⟩
      · simp [scanModules, him, hs, Except.map] at h
    · rcases hs : scanModules env ms with e | l
      · simp only [scanModules, him, hs, Except.map, Except.error.injEq] at h
        obtain ⟨hmem, hprop⟩ := ih (h ▸ hs)
        exact ⟨List.mem_cons_of_mem x hmem, hprop⟩
      · simp [scanModules, him, hs, Except.map] at h
    · simp only [scanModules, him, Except.error.injEq] at h
      exact ⟨h ▸ List.mem_cons_self x ms, h ▸ him⟩

theorem check_no_modules_no_missing (env : Env) (st : TestState)
    (hmod : st.python_modules = []) (m : String) :
    (check_dependencies env st).1 ≠
      Except.error (CheckErr.missingModuleError m) := by
  intro h
  rcases hsp : scanProbes env st (probeKeys st.ubuntu_todos) with ⟨res, tr⟩
  rcases res with e | l
  · simp [check_dependencies, hsp] at h
  · by_cases hl : 0 < l.length <;>
      simp [check_dependencies, hsp, hmod, scanModules, hl] at h

/-! ## Claims -/

/-- C1, counterexample: in the piped branch, with both executables
present, the first stage exiting 0 and the second stage exiting 1,
the probe does not return false — check_output raises
CalledProcessError, which not_installed does not catch.  The claim
states the probe returns false whenever a stage of the pipe exits
non-zero. -/
theorem C1_counterexample :
    envStd.exec ["b"] = ExecResult.exited 1 ∧
    "|" ∈ ["a", "|", "b"] ∧
    (not_installed envStd stPipeAB "k").1 ≠ Except.ok false ∧
    (not_installed envStd stPipeAB "k").1 =
      Except.error (ProbeErr.calledProcessError 1) := by
  decide

/-- C1, amended: probe returns true exactly when the probe command
raised FileNotFoundError, and false whenever it ran to completion —
which in the piped branch includes a FIRST stage exiting non-zero
(its exit status is never consulted), but not a second stage exiting
non-zero, since check_output then raises CalledProcessError and the
error propagates. -/
theorem C1_probe_boolean (env : Env) (st : TestState) (k : String)
    (cmds : List String) (h : lookupCmd k st.ubuntu_todos = some cmds) :
    ((not_installed env st k).1 = Except.ok true ↔
      (runCmd env cmds).1 = Except.error CmdError.fileNotFound) ∧
    ((runCmd env cmds).1 = Except.ok () →
      (not_installed env st k).1 = Except.ok false) ∧
    (∀ c, "|" ∈ cmds →
      env.exec (cmds.take (pipeIdx cmds)) = ExecResult.exited c →
      env.exec (cmds.drop (pipeIdx cmds + 1)) = ExecResult.exited 0 →
      (not_installed env st k).1 = Except.ok false) := by
  refine ⟨?_, ?_, ?_⟩
  · rcases hrc : runCmd env cmds with ⟨res, tr⟩
    rcases res with e | u
    · rcases e with _ | c <;> simp [not_installed, h, hrc]
    · simp [not_installed, h, hrc]
  · intro hok
    rcases hrc : runCmd env cmds with ⟨res, tr⟩
    rw [hrc] at hok
    simp only at hok
    subst hok
    simp [not_installed, h, hrc]
  · intro c hp hl hr
    have hok : (runCmd env cmds).1 = Except.ok () := by
      simp [runCmd, hp, hl, hr]
    rcases hrc : runCmd env cmds with ⟨res, tr⟩
    rw [hrc] at hok
    simp only at hok
    subst hok
    simp [not_installed, h, hrc]

/-- C1, witness for the amended theorem: a piped probe whose first
stage exits 3 and whose second stage exits 0 returns false. -/
theorem C1_witness :
    (not_installed envStd stPipeLft "k2").1 = Except.ok false :=
  (C1_probe_boolean envStd stPipeLft "k2" ["lft", "|", "a"] (by decide)).2.2 3
    (by decide) (by decide) (by decide)

/-- C2: the construction is not copy-on-build.  MappingProxyType
wraps the dict object the caller passed in as a read-only view
without copying it, so a caller that keeps its reference to the
original dict and mutates it changes what subsequent probe calls
execute: here, after construction, reassigning the probe command of
component tool in the original dict flips the probe result from
installed to not installed. -/
theorem C2_proxy_is_view_not_copy :
    (notInstalledRef envStd heap0 (Test.initRef 0) "tool").1 =
      Except.ok false ∧
    heapSet heap0 0 (dictSetItem (heap0 0) "tool" ["missing"]) 0 =
      [("tool", ["missing"])] ∧
    (notInstalledRef envStd
        (heapSet heap0 0 (dictSetItem (heap0 0) "tool" ["missing"]))
        (Test.initRef 0) "tool").1 =
      Except.ok true := by
  decide

/-- C3, counterexample: when the second stage of the pipeline raises
(here FileNotFoundError because its executable is missing), the first
stage child was spawned but the final wait on it is never reached, so
runCmd propagates the error with an unwaited child in its trace. -/
theorem C3_counterexample :
    (runCmd envStd ["a", "|", "missing"]).1 =
      Except.error CmdError.fileNotFound ∧
    (runCmd envStd ["a", "|", "missing"]).2 =
      [⟨["a"], Dest.toPipe, Dest.inherited, false⟩] ∧
    (runCmd envStd ["a", "|", "missing"]).2.all (fun s => s.waited) = false := by
  decide

/-- C3, amended: every spawned child is waited on when runCmd returns
normally, and in the non-piped branch also when it raises; but when a
pipeline second stage raises, the first child is left unwaited. -/
theorem C3_children_waited_unless_second_stage_raises (env : Env)
    (cmds : List String)
    (h : (runCmd env cmds).1 = Except.ok () ∨ ¬ "|" ∈ cmds) :
    (runCmd env cmds).2.all (fun s => s.waited) = true := by
  by_cases hp : "|" ∈ cmds
  · rcases h with h | h
    · revert h
      simp only [runCmd, if_pos hp]
      rcases envl : env.exec (cmds.take (pipeIdx cmds)) with _ | cl
      · intro h; simp at h
      · rcases envr : env.exec (cmds.drop (pipeIdx cmds + 1)) with _ | cr
        · intro h; simp at h
        · by_cases hc : cr = 0
          · subst hc; intro _; simp
          · simp only [if_neg hc]; intro h; simp at h
    · exact absurd hp h
  · simp only [runCmd, if_neg hp]
    rcases envc : env.exec cmds with _ | c
    · simp
    · by_cases hc : c = 0 <;> simp [hc]

/-- C3, witness for the amended theorem: a pipeline that completes
normally leaves every child waited on. -/
theorem C3_witness :
    (runCmd envStd ["a", "|", "c"]).2.all (fun s => s.waited) = true :=
  C3_children_waited_unless_second_stage_raises envStd ["a", "|", "c"]
    (Or.inl (by decide))

/-- C4: the two aggregate errors are mutually exclusive in one call:
a result reporting UninstalledDependencyError is never
MissingModuleError; MissingModuleError arises only when the probe
scan reported no missing component and some import failed; and
whenever the probe scan completed with at least one missing component
and the import scan did not propagate, the result is exactly
UninstalledDependencyError over the missing components. -/
theorem C4_aggregate_errors_exclusive (env : Env) (st : TestState) :
    (∀ a b, (check_dependencies env st).1 =
        Except.error (CheckErr.uninstalledDependencyError a) →
      (check_dependencies env st).1 ≠
        Except.error (CheckErr.missingModuleError b)) ∧
    (∀ m, (check_dependencies env st).1 =
        Except.error (CheckErr.missingModuleError m) →
      (scanProbes env st (probeKeys st.ubuntu_todos)).1 = Except.ok [] ∧
      ∃ mods, scanModules env st.python_modules = Except.ok mods ∧
        mods ≠ [] ∧ m = String.intercalate ", " mods) ∧
    (∀ l mods,
      (scanProbes env st (probeKeys st.ubuntu_todos)).1 = Except.ok l →
      l ≠ [] →
      scanModules env st.python_modules = Except.ok mods →
      (check_dependencies env st).1 =
        Except.error (CheckErr.uninstalledDependencyError
          (String.intercalate ", " l))) := by
  refine ⟨?_, ?_, ?_⟩
  · intro a b hab
    rw [hab]
    simp
  · intro m h
    rcases hsp : scanProbes env st (probeKeys st.ubuntu_todos) with ⟨res, tr⟩
    rcases res with e | l
    · simp [check_dependencies, hsp] at h
    · rcases hsm : scanModules env st.python_modules with e | mods
      · simp [check_dependencies, hsm, hsp] at h
      · by_cases hl : 0 < l.length
        · simp [check_dependencies, hsp, hsm, hl] at h
        · by_cases hm : 0 < mods.length
          · simp only [check_dependencies, hsp, hsm, if_neg hl, if_pos hm,
              Except.error.injEq, CheckErr.missingModuleError.injEq] at h
            have hnil : l = [] := List.length_eq_zero.mp (Nat.eq_zero_of_not_pos hl)
            subst hnil
            exact ⟨rfl, mods, rfl, List.length_pos.mp hm, h.symm⟩
          · simp [check_dependencies, hsp, hsm, hl, hm] at h
  · intro l mods hspr hlne hsm
    rcases hsp : scanProbes env st (probeKeys st.ubuntu_todos) with ⟨res, tr⟩
    rw [hsp] at hspr
    simp only at hspr
    subst hspr
    have hl : 0 < l.length := List.length_pos.mpr hlne
    simp [check_dependencies, hsp, hsm, hl]

/-- C4, witness: one missing system component together with a module
that imports fine yields exactly the UninstalledDependencyError. -/
theorem C4_witness :
    (check_dependencies envStd stOneMissing).1 =
      Except.error (CheckErr.uninstalledDependencyError
        (String.intercalate ", " ["t"])) :=
  (C4_aggregate_errors_exclusive envStd stOneMissing).2.2 ["t"] []
    (by decide) (by decide) (by decide)

/-- C5: when check_dependencies raises UninstalledDependencyError,
the probe trace covers the whole checklist in iteration order (no
short-circuit on the first failure), the carried item string is the
comma-join of exactly the failing components in iteration order, and
the exception message names them all. -/
theorem C5_scan_completes_before_raise (env : Env) (st : TestState)
    (item : String)
    (h : (check_dependencies env st).1 =
      Except.error (CheckErr.uninstalledDependencyError item)) :
    (check_dependencies env st).2 = probeKeys st.ubuntu_todos ∧
    item = String.intercalate ", "
      ((probeKeys st.ubuntu_todos).filter
        (fun k => decide ((not_installed env st k).1 = Except.ok true))) ∧
    uninstalledMessage item =
      String.intercalate ", "
        ((probeKeys st.ubuntu_todos).filter
          (fun k => decide ((not_installed env st k).1 = Except.ok true))) ++
        " not installed ... " := by
  rcases hsp : scanProbes env st (probeKeys st.ubuntu_todos) with ⟨res, tr⟩
  rcases res with e | l
  · simp [check_dependencies, hsp] at h
  · rcases hsm : scanModules env st.python_modules with e | mods
    · simp [check_dependencies, hsp, hsm] at h
    · obtain ⟨hfil, htr⟩ :=
        scanProbes_ok_spec env st (probeKeys st.ubuntu_todos) l (by rw [hsp])
      rw [hsp] at htr
      simp only at htr
      by_cases hl : 0 < l.length
      · simp only [check_dependencies, hsp, hsm, if_pos hl,
          Except.error.injEq,
          CheckErr.uninstalledDependencyError.injEq] at h ⊢
        subst htr
        refine ⟨rfl, ?_, ?_⟩
        · rw [← h, hfil]
        · rw [uninstalledMessage, ← h, hfil]
      · by_cases hm : 0 < mods.length
        · simp [check_dependencies, hsp, hsm, hl, hm] at h
        · simp [check_dependencies, hsp, hsm, hl, hm] at h

/-- C5, witness: three components of which the first and third are
missing give a full trace and the comma-joined message. -/
theorem C5_witness :
    (check_dependencies envStd stThree).2 = probeKeys stThree.ubuntu_todos ∧
    "t1, t3" = String.intercalate ", "
      ((probeKeys stThree.ubuntu_todos).filter
        (fun k => decide ((not_installed envStd stThree k).1 =
          Except.ok true))) ∧
    uninstalledMessage "t1, t3" =
      String.intercalate ", "
        ((probeKeys stThree.ubuntu_todos).filter
          (fun k => decide ((not_installed envStd stThree k).1 =
            Except.ok true))) ++
        " not installed ... " :=
  C5_scan_completes_before_raise envStd stThree "t1, t3" (by decide)

/-- C6: a non-piped probe command whose executable exists but exits
non-zero makes check_call raise CalledProcessError, which
not_installed does not catch: the probe propagates the error instead
of returning a boolean. -/
theorem C6_nonzero_exit_propagates (env : Env) (st : TestState) (k : String)
    (cmds : List String) (c : Nat)
    (h1 : lookupCmd k st.ubuntu_todos = some cmds) (h2 : ¬ "|" ∈ cmds)
    (h3 : env.exec cmds = ExecResult.exited c) (h4 : c ≠ 0) :
    (not_installed env st k).1 =
      Except.error (ProbeErr.calledProcessError c) := by
  have hrc : runCmd env cmds =
      (Except.error (CmdError.calledProcessError c),
        [⟨cmds, Dest.null, Dest.null, true⟩]) := by
    simp [runCmd, h2, h3, h4]
  simp [not_installed, h1, hrc]

/-- C6, witness: a present executable exiting 1 propagates
CalledProcessError out of the probe. -/
theorem C6_witness :
    (not_installed envStd stNonzero "t").1 =
      Except.error (ProbeErr.calledProcessError 1) :=
  C6_nonzero_exit_propagates envStd stNonzero "t" ["b"] 1 (by decide)
    (by decide) (by decide) (by decide)

/-- C7: probing a component that is not a key of the checklist raises
the KeyError listing the valid keys and spawns no child process. -/
theorem C7_unknown_component (env : Env) (st : TestState) (k : String)
    (h : ¬ k ∈ probeKeys st.ubuntu_todos) :
    (not_installed env st k).1 =
      Except.error (ProbeErr.keyError k (probeKeys st.ubuntu_todos)) ∧
    (not_installed env st k).2 = [] := by
  have hl := lookupCmd_eq_none_of_not_mem k st.ubuntu_todos h
  constructor <;> simp [not_installed, hl]

/-- C7, witness: an undefined key raises KeyError with the valid keys
and an empty spawn trace. -/
theorem C7_witness :
    (not_installed envStd stNonzero "zzz").1 =
      Except.error (ProbeErr.keyError "zzz" (probeKeys stNonzero.ubuntu_todos)) ∧
    (not_installed envStd stNonzero "zzz").2 = [] :=
  C7_unknown_component envStd stNonzero "zzz" (by decide)

/-- C8, counterexample: an ImportError that is not a
ModuleNotFoundError (here some import raised inside the imported
module) does not propagate out of check_dependencies — the broad
except ImportError clause catches it and collects the module into the
missing-module list. -/
theorem C8_counterexample :
    envStd.importModule "impErr" = ImportResult.importErrorOther ∧
    ImportResult.importErrorOther ≠ ImportResult.moduleNotFound ∧
    (check_dependencies envStd stImpErr).1 =
      Except.error (CheckErr.missingModuleError "impErr") := by
  decide

/-- C8, amended: the module-check step catches every ImportError
(ModuleNotFoundError and every other ImportError alike), collecting
those modules in list order; only an exception that is not an
ImportError at all propagates unmodified out of check_dependencies. -/
theorem C8_import_error_handling (env : Env) (st : TestState)
    (ms : List String) :
    ((∀ m ∈ ms, env.importModule m ≠ ImportResult.otherError) →
      scanModules env ms = Except.ok (ms.filter (fun m =>
        decide (env.importModule m = ImportResult.moduleNotFound ∨
          env.importModule m = ImportResult.importErrorOther)))) ∧
    (∀ m, scanModules env ms = Except.error m →
      m ∈ ms ∧ env.importModule m = ImportResult.otherError) ∧
    (∀ m l, scanModules env st.python_modules = Except.error m →
      (scanProbes env st (probeKeys st.ubuntu_todos)).1 = Except.ok l →
      (check_dependencies env st).1 =
        Except.error (CheckErr.importOtherError m)) := by
  refine ⟨scanModules_ok_spec env ms,
    fun m h => scanModules_error_spec env ms m h, ?_⟩
  intro m l hsm hspr
  rcases hsp : scanProbes env st (probeKeys st.ubuntu_todos) with ⟨res, tr⟩
  rw [hsp] at hspr
  simp only at hspr
  subst hspr
  simp [check_dependencies, hsp, hsm]

/-- C8, witness for the amended theorem: a module list mixing a fine
module, a module with a plain ImportError and a missing module
collects the latter two; and a module raising a non-ImportError
exception propagates out of check_dependencies. -/
theorem C8_witness :
    scanModules envStd ["good", "impErr", "nomod"] =
      Except.ok (["good", "impErr", "nomod"].filter (fun m =>
        decide (envStd.importModule m = ImportResult.moduleNotFound ∨
          envStd.importModule m = ImportResult.importErrorOther))) ∧
    ("boom" ∈ ["boom"] ∧
      envStd.importModule "boom" = ImportResult.otherError) ∧
    (check_dependencies envStd stBoom).1 =
      Except.error (CheckErr.importOtherError "boom") :=
  ⟨(C8_import_error_handling envStd stBoom ["good", "impErr", "nomod"]).1
      (by decide),
   (C8_import_error_handling envStd stBoom ["boom"]).2.1 "boom" (by decide),
   (C8_import_error_handling envStd stBoom []).2.2 "boom" [] (by decide)
      (by decide)⟩

/-- C9, counterexample: in the piped branch the standard error of
both children is inherited from the parent, not redirected to the
null sink — here a pipeline that runs to completion leaves both
spawned children with stderr inherited. -/
theorem C9_counterexample :
    (runCmd envStd ["a", "|", "c"]).1 = Except.ok () ∧
    (runCmd envStd ["a", "|", "c"]).2.all
      (fun s => s.stdout == Dest.null && s.stderr == Dest.null) = false ∧
    (runCmd envStd ["a", "|", "c"]).2.all
      (fun s => s.stderr == Dest.inherited) = true := by
  decide

/-- C9, amended: in the non-piped branch stdout and stderr of the
child are both redirected to the null sink; in the piped branch
stdout of the first child feeds the pipe and stdout of the second is
captured (and discarded), but stderr of both children stays
inherited. -/
theorem C9_redirection (env : Env) (cmds : List String) :
    (¬ "|" ∈ cmds →
      (runCmd env cmds).2.all
        (fun s => s.stdout == Dest.null && s.stderr == Dest.null) = true) ∧
    ("|" ∈ cmds →
      (runCmd env cmds).2.all
        (fun s => s.stderr == Dest.inherited &&
          !(s.stdout == Dest.inherited)) = true) := by
  constructor
  · intro hp
    simp only [runCmd, if_neg hp]
    rcases envc : env.exec cmds with _ | c
    · simp
    · by_cases hc : c = 0 <;> simp [hc]
  · intro hp
    simp only [runCmd, if_pos hp]
    rcases envl : env.exec (cmds.take (pipeIdx cmds)) with _ | cl
    · simp
    · rcases envr : env.exec (cmds.drop (pipeIdx cmds + 1)) with _ | cr
      · simp
      · by_cases hc : cr = 0 <;> simp [hc]

/-- C9, witness for the amended theorem: a non-piped probe sends both
streams to the null sink; a piped probe leaves stderr inherited and
stdout piped or captured. -/
theorem C9_witness :
    (runCmd envStd ["a"]).2.all
      (fun s => s.stdout == Dest.null && s.stderr == Dest.null) = true ∧
    (runCmd envStd ["lft", "|", "a"]).2.all
      (fun s => s.stderr == Dest.inherited &&
        !(s.stdout == Dest.inherited)) = true :=
  ⟨(C9_redirection envStd ["a"]).1 (by decide),
   (C9_redirection envStd ["lft", "|", "a"]).2 (by decide)⟩

/-- C10: a freshly constructed checker has the empty python_modules
tuple, and check_dependencies on it can never raise
MissingModuleError — the module-import check is vacuous. -/
theorem C10_fresh_checker_never_missing_module (env : Env)
    (d : List (String × List String)) (m : String) :
    (Test.init d).python_modules = [] ∧
    (check_dependencies env (Test.init d)).1 ≠
      Except.error (CheckErr.missingModuleError m) :=
  ⟨rfl, check_no_modules_no_missing env (Test.init d) rfl m⟩

/-- C10, witness: a freshly constructed checker over one component
does not report a missing module. -/
theorem C10_witness :
    (check_dependencies envStd (Test.init [("t", ["a"])])).1 ≠
      Except.error (CheckErr.missingModuleError "x") :=
  (C10_fresh_checker_never_missing_module envStd [("t", ["a"])] "x").2

end DepCheck
